import Mathlib

/-!
Verification of the KASINO comment-synthesis pipeline (`macro_bot.py`).

Strings are shallowly embedded as `List Char`; Python's `time.time()` is
embedded as a `Nat` clock passed explicitly; `random.*` calls are embedded as
an explicit stream of draws (`List Nat`), one value consumed per call site, with
`random.random() < p` rendered as `draw % 100 < p·100` and `random.random() > p`
as `p·100 < draw % 100` (all probabilities in the source are whole percents),
and `random.choice(xs)` as `xs[draw % len xs]`.
Float arithmetic on small integer counts (usage-rate thresholds) is rendered as
exact integer cross-multiplication; at the thresholds appearing in the source
(0.1, 0.15, 0.2, 0.3, 0.5) and the integer counts involved (≤ 15 comments) the
float comparisons of the source agree with the exact ones.

All definitions are due to be executable so that claims can be settled on
concrete inputs by evaluation.
-/

set_option maxHeartbeats 2000000

namespace Kasino

/-- Python whitespace characters (`str.strip`, regex `\s`), ASCII range. -/
def pyWs (c : Char) : Bool :=
  c = ' ' || c = '\t' || c = '\n' || c = '\x0d' || c = '\x0b' || c = '\x0c'

/-- `str.strip()` : drop whitespace on both ends. -/
def stripWs (l : List Char) : List Char :=
  ((l.dropWhile pyWs).reverse.dropWhile pyWs).reverse

/-- `str.rstrip(chars)` : drop any of `cs` from the right end. -/
def rstripAny (cs : List Char) (l : List Char) : List Char :=
  (l.reverse.dropWhile (fun c => cs.contains c)).reverse

/-- `str.strip(ch)` : drop `ch` from both ends. -/
def stripChar (ch : Char) (l : List Char) : List Char :=
  ((l.dropWhile (· = ch)).reverse.dropWhile (· = ch)).reverse

/-- `str.rstrip(ch)` : drop `ch` from the right end. -/
def rstripChar (ch : Char) (l : List Char) : List Char :=
  (l.reverse.dropWhile (· = ch)).reverse

/-- `pat in s` : substring containment. -/
def containsSub (l pat : List Char) : Bool :=
  match l with
  | [] => pat.isEmpty
  | _ :: tl => pat.isPrefixOf l || containsSub tl pat

/-- `s.endswith(pat)`. -/
def endsWith (l pat : List Char) : Bool :=
  pat.reverse.isPrefixOf l.reverse

/-- `s.count(ch)` for a single character. -/
def countChar (ch : Char) (l : List Char) : Nat :=
  l.countP (· = ch)

/-- `s.replace(old, new)` (all non-overlapping occurrences, left to right);
`fuel` bounds the recursion and is set to the length of the string. -/
def replaceAllAux (old new : List Char) : Nat → List Char → List Char
  | _, [] => []
  | 0, l => l
  | fuel + 1, c :: tl =>
    if old ≠ [] && old.isPrefixOf (c :: tl) then
      new ++ replaceAllAux old new fuel ((c :: tl).drop old.length)
    else
      c :: replaceAllAux old new fuel tl

/-- `s.replace(old, new)`. -/
def replaceAll (old new l : List Char) : List Char :=
  replaceAllAux old new l.length l

/-- `s.replace(old, new, 1)` : first occurrence only. -/
def replaceFirst (old new : List Char) : List Char → List Char
  | [] => []
  | c :: tl =>
    if old ≠ [] && old.isPrefixOf (c :: tl) then
      new ++ (c :: tl).drop old.length
    else
      c :: replaceFirst old new tl

/-- `s.split(sep)` for a non-empty separator substring. -/
def splitOnSubAux (sep : List Char) : Nat → List Char → List Char → List (List Char)
  | _, acc, [] => [acc.reverse]
  | 0, acc, l => [acc.reverse ++ l]
  | fuel + 1, acc, c :: tl =>
    if sep ≠ [] && sep.isPrefixOf (c :: tl) then
      acc.reverse :: splitOnSubAux sep fuel [] ((c :: tl).drop sep.length)
    else
      splitOnSubAux sep fuel (c :: acc) tl

/-- `s.split(sep)`. -/
def splitOnSub (sep l : List Char) : List (List Char) :=
  splitOnSubAux sep l.length [] l

/-- Pop the next pseudo-random draw from the stream (0 when exhausted). -/
def next (rng : List Nat) : Nat × List Nat :=
  (rng.headD 0, rng.tail)

/-- `random.choice(xs)` rendered with an explicit draw. -/
def pyChoice (xs : List (List Char)) (draw : Nat) : List Char :=
  (xs.get? (draw % xs.length)).getD []

/-- Replace every maximal run of characters satisfying `p` whose length is at
least `thr` by `rep` (regex `[c]{thr,}` → `rep`); `run` accumulates the current
run in reverse. -/
def collapseRunAux (p : Char → Bool) (thr : Nat) (rep : List Char) :
    List Char → List Char → List Char
  | run, [] => if thr ≤ run.length then rep else run.reverse
  | run, c :: tl =>
    if p c then
      collapseRunAux p thr rep (c :: run) tl
    else
      (if thr ≤ run.length then rep else run.reverse) ++
        c :: collapseRunAux p thr rep [] tl

/-- Regex `X{thr,}` → `rep` over a character class. -/
def collapseRunGe (p : Char → Bool) (thr : Nat) (rep : List Char)
    (l : List Char) : List Char :=
  collapseRunAux p thr rep [] l

/-- `clean_comment` step 3 (lines 2636–2641): if a question mark occurs but the
string does not end with one, delete all of them and append a single one. -/
def step_qmark (l : List Char) : List Char :=
  if l.contains '?' && l.getLast? ≠ some '?' then
    l.filter (· ≠ '?') ++ ['?']
  else l

/-- Regex `(\S+)용$` → `\1요` (line 2644): a final 용 preceded by a non-space
character becomes 요. -/
def step_yong_end (l : List Char) : List Char :=
  match l.reverse with
  | '용' :: p :: rest => if !pyWs p then ('요' :: p :: rest).reverse else l
  | _ => l

/-- Regex `(\S+)용\s` → `\1요 ` (line 2645): 용 preceded by a non-space and
followed by a whitespace character becomes 요 and the whitespace a space.
`prev` carries the preceding character. -/
def yongMidAux : Option Char → List Char → List Char
  | _, [] => []
  | _, [c] => [c]
  | prev, c :: d :: tl =>
    let prevSolid := match prev with | some p => !pyWs p | none => false
    if c = '용' && prevSolid && pyWs d then
      '요' :: ' ' :: yongMidAux (some ' ') tl
    else
      c :: yongMidAux (some c) (d :: tl)

/-- Regex `(\S+)용\s` → `\1요 `. -/
def step_yong_mid (l : List Char) : List Char :=
  yongMidAux none l

/-- The sentence-final particles of the duplicated-ending regexes
(lines 2651–2652 and 2700–2701), first group, in the source's alternation
order. -/
def gEndings1 : List (List Char) :=
  [['죠'], ['요'], ['네', '요'], ['어', '요'], ['해', '요'], ['되', '요'],
   ['다', '요'], ['야', '요'], ['까', '요'], ['나', '요'], ['세', '요'],
   ['지', '요']]

/-- First group of the regex at line 2651, which lists 세요 twice; the
duplicate alternative is kept for fidelity (it cannot change a match). -/
def gCleanA : List (List Char) := gEndings1 ++ [['세', '요']]

/-- Second group of the duplicated-ending regexes (extra particle glued after a
complete one), in the source's alternation order. -/
def gEndings2 : List (List Char) :=
  [['여'], ['요'], ['네', '요'], ['어', '요'], ['해', '요'], ['되', '요'],
   ['다', '요'], ['야', '요'], ['까', '요'], ['나', '요'], ['세', '요'],
   ['지', '요']]

/-- Try to match `(g1)(g2)(\?|$)` at the head of `l`, backtracking over the
alternatives in order exactly as the regex engine does; returns the emitted
replacement `\1\3` and the number of consumed characters. -/
def pairQMatch (g1 : List (List Char)) (l : List Char) :
    Option (List Char × Nat) :=
  (g1.flatMap (fun a => gEndings2.map (fun b => (a, b)))).findSome?
    (fun ab =>
      if ab.1.isPrefixOf l then
        let l1 := l.drop ab.1.length
        if ab.2.isPrefixOf l1 then
          match l1.drop ab.2.length with
          | [] => some (ab.1, ab.1.length + ab.2.length)
          | '?' :: _ => some (ab.1 ++ ['?'], ab.1.length + ab.2.length + 1)
          | _ => none
        else none
      else none)

/-- Regex `(g1)(g2)(\?|$)` → `\1\3` (lines 2651 and 2700), scanning left to
right; `fuel` bounds the scan and is set to the length of the string (every
match consumes at least two characters). -/
def regexSubAAux (g1 : List (List Char)) : Nat → List Char → List Char
  | _, [] => []
  | 0, l => l
  | fuel + 1, c :: tl =>
    match pairQMatch g1 (c :: tl) with
    | some (emit, k) => emit ++ regexSubAAux g1 fuel ((c :: tl).drop k)
    | none => c :: regexSubAAux g1 fuel tl

/-- Regex `(g1)(g2)(\?|$)` → `\1\3`. -/
def regexSubA (g1 : List (List Char)) (l : List Char) : List Char :=
  regexSubAAux g1 l.length l

/-- Decompose `s` exactly as `g1 ++ g2` (for the end-anchored regex), taking
the first `g1` alternative that works, as the regex engine does. -/
def decomposeEnd (g1 : List (List Char)) (s : List Char) :
    Option (List Char) :=
  g1.findSome? (fun a =>
    if a.isPrefixOf s && gEndings2.contains (s.drop a.length) then some a
    else none)

/-- Regex `(g1)(g2)$` → `\1` (lines 2652 and 2701): the match starts at the
smallest position whose whole remainder splits as `g1 ++ g2`. -/
def regexSubB (g1 : List (List Char)) (l : List Char) : List Char :=
  match (List.range (l.length + 1)).findSome?
      (fun p => (decomposeEnd g1 (l.drop p)).map (fun a => (p, a))) with
  | some pa => l.take pa.1 ++ pa.2
  | none => l

/-- Regex `pre요+` → `rep` (the duplicated-ending collapses, lines 2655–2663
and 2689–2697): a literal prefix followed by a maximal non-empty run of 요. -/
def subPrefRunAux (pre rep : List Char) : Nat → List Char → List Char
  | _, [] => []
  | 0, l => l
  | fuel + 1, c :: tl =>
    if pre.isPrefixOf (c :: tl) then
      let rest := (c :: tl).drop pre.length
      let k := (rest.takeWhile (· = '요')).length
      if 1 ≤ k then rep ++ subPrefRunAux pre rep fuel (rest.drop k)
      else c :: subPrefRunAux pre rep fuel tl
    else c :: subPrefRunAux pre rep fuel tl

/-- Regex `pre요+` → `rep`. -/
def subPrefRun (pre rep l : List Char) : List Char :=
  subPrefRunAux pre rep l.length l

/-- The nine duplicated-ending collapses shared by `clean_comment`
(lines 2655–2663) and `clean_comment_final_only` (lines 2689–2697), in order:
요요+→요, 네요요+→네요, 어요요+→어요, 해요요+→해요, 되요요+→되요,
다요요+→다요, 야요요+→야요, 죠요+→죠, 죠요요+→죠. -/
def dupEndingCollapses (l : List Char) : List Char :=
  let c := subPrefRun ['요'] ['요'] l
  let c := subPrefRun ['네', '요'] ['네', '요'] c
  let c := subPrefRun ['어', '요'] ['어', '요'] c
  let c := subPrefRun ['해', '요'] ['해', '요'] c
  let c := subPrefRun ['되', '요'] ['되', '요'] c
  let c := subPrefRun ['다', '요'] ['다', '요'] c
  let c := subPrefRun ['야', '요'] ['야', '요'] c
  let c := subPrefRun ['죠'] ['죠'] c
  subPrefRun ['죠', '요'] ['죠'] c

/-- Try to match `(\S+)요\s*요` at the head of `l`: a non-space run (greedy,
so the largest split is tried first), a 요, optional whitespace, a 요.
Returns the replacement `\1요` and the consumed length. -/
def match7a (l : List Char) : Option (List Char × Nat) :=
  let run := l.takeWhile (fun c => !pyWs c)
  (List.range run.length).reverse.findSome? (fun a =>
    if 1 ≤ a && run.get? a = some '요' then
      let after := l.drop (a + 1)
      let w := (after.takeWhile pyWs).length
      if (after.drop w).head? = some '요' then
        some (run.take a ++ ['요'], a + 1 + w + 1)
      else none
    else none)

/-- Regex `(\S+)요\s*요` → `\1요` (line 2668), scanning left to right. -/
def step7aAux : Nat → List Char → List Char
  | _, [] => []
  | 0, l => l
  | fuel + 1, c :: tl =>
    match match7a (c :: tl) with
    | some (emit, k) => emit ++ step7aAux fuel ((c :: tl).drop k)
    | none => c :: step7aAux fuel tl

/-- Regex `(\S+)요\s*요` → `\1요`. -/
def step7a (l : List Char) : List Char :=
  step7aAux l.length l

/-- Regex `(\S+)\s*요$` → `\1요` (line 2669): delete the whitespace run
between the final 요 and the non-space text before it. -/
def step7b (l : List Char) : List Char :=
  match l.reverse with
  | '요' :: rest =>
    let rest' := rest.drop (rest.takeWhile pyWs).length
    match rest'.head? with
    | some c => if !pyWs c then ('요' :: rest').reverse else l
    | none => l
  | _ => l

/-- Regex `\s+([요])` → `\1` (line 2672): delete whitespace runs immediately
before a 요; scanning resumes after the 요. -/
def step8Aux : Nat → List Char → List Char
  | _, [] => []
  | 0, l => l
  | fuel + 1, c :: tl =>
    if pyWs c then
      let run := ((c :: tl).takeWhile pyWs).length
      let rest := (c :: tl).drop run
      if rest.head? = some '요' then '요' :: step8Aux fuel rest.tail
      else (c :: tl).take run ++ step8Aux fuel rest
    else c :: step8Aux fuel tl

/-- Regex `\s+([요])` → `\1`. -/
def step8 (l : List Char) : List Char :=
  step8Aux l.length l

/-- Regex `\s+` → `' '` followed by `str.strip()` (lines 2675–2676). -/
def collapseWsStrip (l : List Char) : List Char :=
  stripWs (collapseRunGe pyWs 1 [' '] l)

/-- `clean_comment` (lines 2618–2678): the normalizer.  The steps appear in
the source's order. -/
def clean_comment (comment : List Char) : List Char :=
  if comment = [] then comment else
  let c := collapseRunGe (· = '~') 3 ['~'] comment
  let c := collapseRunGe (· = '!') 3 ['!'] c
  let c := collapseRunGe (· = 'ㅠ') 3 ['ㅠ', 'ㅠ'] c
  let c := collapseRunGe (fun x => x = 'ㅎ' || x = 'ㅋ') 2 [] c
  let c := c.filter (· ≠ '.')
  let c := step_qmark c
  let c := step_yong_end c
  let c := step_yong_mid c
  let c := regexSubA gCleanA c
  let c := regexSubB gEndings1 c
  let c := dupEndingCollapses c
  let c := step7a c
  let c := step7b c
  let c := step8 c
  collapseWsStrip c

/-- `clean_comment_final_only` (lines 2680–2707): duplicated-ending removal
only, decorations preserved. -/
def clean_comment_final_only (comment : List Char) : List Char :=
  if comment = [] then comment else
  let c := dupEndingCollapses comment
  let c := regexSubA gEndings1 c
  let c := regexSubB gEndings1 c
  collapseWsStrip c

/-!  ## RepetitionGuard (`macro_bot.py` lines 279–302)

The store `comment_history` is a list of `(text, used-at)` pairs; the
minimum-reuse window `min_repeat_interval` and the clock `now` are explicit.
-/

/-- One repetition record: the comment text and the timestamp it was used at. -/
abbrev CommentRecord := List Char × Nat

/-- `_cleanup_comment_history` (lines 279–285): keep entries with
`now - ts < max(min_repeat_interval, 60)`. -/
def cleanup_comment_history (window now : Nat) (h : List CommentRecord) :
    List CommentRecord :=
  h.filter (fun e => now - e.2 < max window 60)

/-- The scan in `is_comment_recent` (lines 291–295): first record matching the
text inside the window wins. -/
def recentScan (window now : Nat) (text : List Char) :
    List CommentRecord → Bool × Nat
  | [] => (false, 0)
  | (t, ts) :: rest =>
    if t = text ∧ now - ts < window then
      (true, window - (now - ts))
    else
      recentScan window now text rest

/-- `is_comment_recent` (lines 287–295).  The mutated store (the history after
the initial cleanup) is returned alongside the query result. -/
def is_comment_recent (window now : Nat) (h : List CommentRecord)
    (text : List Char) : (Bool × Nat) × List CommentRecord :=
  let h' := cleanup_comment_history window now h
  (recentScan window now text h', h')

/-- `record_comment_usage` (lines 297–302): cleanup, then append `(text, now)`. -/
def record_comment_usage (window now : Nat) (h : List CommentRecord)
    (text : List Char) : List CommentRecord :=
  cleanup_comment_history window now h ++ [(text, now)]

end Kasino

namespace Kasino

/-- C6 sample text "화이팅요". -/
def hwaitingyo : List Char := ['화', '이', '팅', '요']

end Kasino

/-- **C6.** Recording a text at `t₀` with a 900 s window makes the recent-use
query on the same text answer `(true, 900)` at `t₀`, `(true, 450)` at
`t₀ + 450`, and `(false, 0)` at `t₀ + 901` (the record is purged). -/
theorem C6_repetition_window (t0 : Nat) :
    (Kasino.is_comment_recent 900 t0
        (Kasino.record_comment_usage 900 t0 [] Kasino.hwaitingyo)
        Kasino.hwaitingyo).1 = (true, 900) ∧
    (Kasino.is_comment_recent 900 (t0 + 450)
        (Kasino.record_comment_usage 900 t0 [] Kasino.hwaitingyo)
        Kasino.hwaitingyo).1 = (true, 450) ∧
    (Kasino.is_comment_recent 900 (t0 + 901)
        (Kasino.record_comment_usage 900 t0 [] Kasino.hwaitingyo)
        Kasino.hwaitingyo).1 = (false, 0) := by
  refine ⟨?_, ?_, ?_⟩ <;>
    simp [Kasino.record_comment_usage, Kasino.is_comment_recent,
      Kasino.cleanup_comment_history, Kasino.recentScan, Nat.add_sub_cancel_left]

/-- **C7.** After any access to the repetition store — recording a used comment
or querying recent use — every surviving record is younger than
`max(window, 60)` seconds. -/
theorem C7_store_purged (window now : Nat) (h : List Kasino.CommentRecord)
    (text : List Char) (e : Kasino.CommentRecord)
    (hrec : e ∈ Kasino.record_comment_usage window now h text ∨
            e ∈ (Kasino.is_comment_recent window now h text).2) :
    now - e.2 < max window 60 := by
  rcases hrec with hr | hq
  · rcases List.mem_append.mp hr with hfil | hnew
    · exact of_decide_eq_true (List.mem_filter.mp hfil).2
    · rcases List.mem_singleton.mp hnew with rfl
      simp only [Nat.sub_self]
      exact lt_of_lt_of_le (by norm_num) (le_max_right _ _)
  · exact of_decide_eq_true (List.mem_filter.mp hq).2

/-- Witness for C7 at a concrete access. -/
theorem C7_store_purged_witness :
    5 - 5 < max 900 60 :=
  C7_store_purged 900 5 [] ['a'] (['a'], 5) (Or.inl (by decide))

namespace Kasino

/-- Extend every string in the list by one leading particle character
(네 or 요). -/
def nyExt (ls : List (List Char)) : List (List Char) :=
  ls.flatMap (fun l => [('네' :: l), ('요' :: l)])

/-- All strings over the particle alphabet {네, 요} of length at most 4. -/
def allNY : List (List Char) :=
  let l0 : List (List Char) := [[]]
  let l1 := nyExt l0
  let l2 := nyExt l1
  let l3 := nyExt l2
  let l4 := nyExt l3
  l0 ++ l1 ++ l2 ++ l3 ++ l4

/-- The normalization examples appearing in the spec (Scenario C, the comments
of §4.5, and the repetition/ending examples). -/
def specNormExamples : List (List Char) :=
  [['그', '렇', '네', '요', '요', '요', '.'],
   ['노', '곤', '하', '죠', '요', '?'],
   ['노', '곤', '하', '죠', '여', '?'],
   ['화', '이', '팅', '요', '요'],
   ['힘', '내', '용'],
   ['좋', '아', '용'],
   ['일', '어', '나', '셨', '?', '어', '요'],
   ['힘', '내', '요', ' ', '요'],
   ['화', '이', '팅', ' ', '요'],
   ['부', '럽', '네', '요', '~'],
   ['지', '치', '네', '요'],
   ['대', '박', '이', '네', '요', '~']]

end Kasino

/-- **C5, counterexample.**  `clean_comment` is not idempotent: on the
duplicated-particle string 요네요요요 one pass yields 요네요, whose ending
네요 glued after the first 요 is only collapsed by a second pass, which
yields 요. -/
theorem C5_clean_comment_not_idempotent :
    Kasino.clean_comment ['요', '네', '요', '요', '요'] = ['요', '네', '요'] ∧
    Kasino.clean_comment (Kasino.clean_comment ['요', '네', '요', '요', '요'])
      = ['요'] ∧
    Kasino.clean_comment (Kasino.clean_comment ['요', '네', '요', '요', '요'])
      ≠ Kasino.clean_comment ['요', '네', '요', '요', '요'] := by
  refine ⟨by decide, by decide, by decide⟩

/-- **C5, amended.**  `clean_comment` is idempotent on every string over the
particle alphabet {네, 요} of length at most 4 and on each normalization
example given in the spec (in particular Scenario C, 그렇네요요요. →
그렇네요), though not on all strings. -/
theorem C5_clean_comment_idempotent_on_core_domain :
    (Kasino.allNY.all (fun l =>
        Kasino.clean_comment (Kasino.clean_comment l) == Kasino.clean_comment l))
      = true ∧
    (Kasino.specNormExamples.all (fun l =>
        Kasino.clean_comment (Kasino.clean_comment l) == Kasino.clean_comment l))
      = true := by
  exact ⟨by decide, by decide⟩

namespace Kasino

/-!  ## StyleProfiler and lexical helpers
(`analyze_comment_style` lines 2258–2358, `has_meaningful_content` lines
304–312, `is_comment_relevant_to_post` lines 373–438,
`get_optimal_comment_length` lines 2023–2037). -/

/-- The decorative characters stripped from comment ends
(`rstrip('~!?ㅠㅜㅎㅋ')`). -/
def decorChars : List Char := ['~', '!', '?', 'ㅠ', 'ㅜ', 'ㅎ', 'ㅋ']

/-- The ending-classification chain of `analyze_comment_style`
(lines 2298–2329), transcribed with the source's branch order: 요 is tested
first, so the later branches for the longer particles 네요, 어요, 해요, 되요,
다요, 세요, 까요, 나요, 지요 are unreachable (every string ending in them ends
in 요). -/
def classifyEnding (comment : List Char) : Option (List Char) :=
  let cc := rstripAny decorChars comment
  if endsWith cc ['요'] then some ['요']
  else if endsWith cc ['네', '요'] then some ['네', '요']
  else if endsWith cc ['어', '요'] then some ['어', '요']
  else if endsWith cc ['해', '요'] then some ['해', '요']
  else if endsWith cc ['되', '요'] then some ['되', '요']
  else if endsWith cc ['다', '요'] then some ['다', '요']
  else if endsWith cc ['세', '요'] then some ['세', '요']
  else if endsWith cc ['까', '요'] then some ['까', '요']
  else if endsWith cc ['나', '요'] then some ['나', '요']
  else if endsWith cc ['지', '요'] then some ['지', '요']
  else if endsWith cc ['죠'] then some ['죠']
  else if endsWith cc ['다'] then some ['다']
  else if endsWith cc ['어'] then some ['어']
  else if endsWith cc ['해'] then some ['해']
  else if endsWith cc ['야'] then some ['야']
  else none

/-- Order-preserving deduplication (dict insertion order of `Counter`). -/
def firstUniqAux (seen : List (List Char)) :
    List (List Char) → List (List Char)
  | [] => []
  | x :: tl =>
    if seen.contains x then firstUniqAux seen tl
    else x :: firstUniqAux (x :: seen) tl

/-- Stable insertion keeping counts descending; on ties the earlier element
stays first (the tie behaviour of `Counter.most_common`). -/
def insertDesc (cnt : List Char → Nat) (x : List Char) :
    List (List Char) → List (List Char)
  | [] => [x]
  | y :: ys => if cnt x > cnt y then x :: y :: ys else y :: insertDesc cnt x ys

/-- `Counter(xs).most_common()` : unique values by descending count, ties in
first-occurrence order. -/
def mostCommon (xs : List (List Char)) : List (List Char) :=
  (firstUniqAux [] xs).foldl
    (fun acc x => insertDesc (fun v => xs.countP (· = v)) x acc) []

/-- The style profile dictionary returned by `analyze_comment_style`.
`emoji_usage_rate` (a float in the source) is kept exactly as the pair
`emojiCnt / totalCmts` (rate 0 when `totalCmts = 0`); `has_ㅠ` is named
`hasSob`. -/
structure Style where
  ending : List Char
  tone : List Char
  hasEmoji : Bool
  hasTilde : Bool
  hasExclamation : Bool
  hasSob : Bool
  emojiCnt : Nat
  totalCmts : Nat
  avgLength : Nat
  commonEndings : List (List Char)
  deriving Repr, DecidableEq

/-- `emoji_usage_rate < num / den` with exact arithmetic. -/
def Style.rateLt (s : Style) (num den : Nat) : Bool :=
  if s.totalCmts = 0 then decide (0 < num)
  else decide (s.emojiCnt * den < num * s.totalCmts)

/-- `emoji_usage_rate ≥ num / den` with exact arithmetic. -/
def Style.rateGe (s : Style) (num den : Nat) : Bool :=
  !s.rateLt num den

/-- The valid sampled comments of `analyze_comment_style`: the first 15,
skipping empty or shorter-than-2 entries, each stripped (lines 2280–2284). -/
def validCmts (ecs : List (List Char)) : List (List Char) :=
  ((ecs.take 15).filter
      (fun c => !c.isEmpty && decide (2 ≤ (stripWs c).length))).map stripWs

/-- `analyze_comment_style` (lines 2258–2358). -/
def analyze_comment_style (ecs : List (List Char)) : Style :=
  if ecs.isEmpty then
    { ending := [], tone := ['c', 'a', 's', 'u', 'a', 'l'], hasEmoji := false,
      hasTilde := false, hasExclamation := false, hasSob := false,
      emojiCnt := 0, totalCmts := 0, avgLength := 5, commonEndings := [] }
  else
    let cmts := validCmts ecs
    let tildeCnt := cmts.countP (fun c => c.contains '~')
    let exclCnt := cmts.countP (fun c => c.contains '!')
    let sobCnt := cmts.countP (fun c => c.contains 'ㅠ' || c.contains 'ㅜ')
    let emojiCnt := tildeCnt + exclCnt + sobCnt
    let totalLen := (cmts.map List.length).sum
    let endings := cmts.filterMap classifyEnding
    let ranked := mostCommon endings
    let total := cmts.length
    { ending := (ranked.head?).getD [],
      tone := ['c', 'a', 's', 'u', 'a', 'l'],
      hasEmoji := decide (emojiCnt * 5 > total),
      hasTilde := decide (tildeCnt * 5 > total),
      hasExclamation := decide (exclCnt * 5 > total),
      hasSob := decide (sobCnt * 20 > 3 * total),
      emojiCnt := emojiCnt,
      totalCmts := total,
      avgLength := if total > 0 then totalLen / total else 5,
      commonEndings := ranked.take 3 }

/-- `has_meaningful_content` (lines 304–312): at least two characters survive
stripping the filler class `[ㅎㅋ~!?\s.,\-_^*]`. -/
def has_meaningful_content (ct : List Char) : Bool :=
  if ct.isEmpty then false
  else
    let s := stripWs ct
    if s.length < 2 then false
    else
      decide (2 ≤ (s.filter (fun c =>
        !(['ㅎ', 'ㅋ', '~', '!', '?', '.', ',', '-', '_', '^', '*'].contains c
          || pyWs c))).length)

/-- The filler class of `is_comment_relevant_to_post`
(regex `[~!?ㅎㅋㅠㅜ\s.,\-]+`, lines 384–386). -/
def cleanFiller (l : List Char) : List Char :=
  l.filter (fun c =>
    !(['~', '!', '?', 'ㅎ', 'ㅋ', 'ㅠ', 'ㅜ', '.', ',', '-'].contains c
      || pyWs c))

/-- `str.count(sub)` : non-overlapping occurrences. -/
def countOccSubAux (pat : List Char) : Nat → List Char → Nat
  | _, [] => 0
  | 0, _ => 0
  | fuel + 1, c :: tl =>
    if pat ≠ [] && pat.isPrefixOf (c :: tl) then
      1 + countOccSubAux pat fuel ((c :: tl).drop pat.length)
    else countOccSubAux pat fuel tl

/-- `str.count(sub)`. -/
def countOccSub (l pat : List Char) : Nat :=
  countOccSubAux pat l.length l

/-- The meaningless patterns of line 393. -/
def meaninglessPatterns : List (List Char) :=
  [['ㅎ'], ['ㅋ'], ['ㅠ'], ['ㅜ'], ['.', '.', '.'], ['.', '.'], ['.']]

/-- The generic empathy comments of lines 401–402. -/
def empathyComments : List (List Char) :=
  [['힘', '내'], ['아', '쉽'], ['공', '감'], ['위', '로'], ['좋', '아'],
   ['응', '원'], ['화', '이', '팅'], ['축', '하'], ['부', '럽'], ['대', '박'],
   ['지', '치', '네', '요'], ['다', '음', '엔'], ['조', '심']]

/-- The 2–3-character keyword set of the nested `extract_keywords`
(lines 408–416): all substrings of length 2 and 3. -/
def extract_keywords (text : List Char) : List (List Char) :=
  (List.range (text.length - 1)).flatMap (fun i =>
    (([2, 3] : List Nat).filter (fun n => n ≤ text.length - i)).map
      (fun n => (text.drop i).take n))

/-- `is_comment_relevant_to_post` (lines 373–438).  Every branch after the
initial emptiness test returns `true` (the heuristic is deliberately
permissive); the intermediate computations are kept as in the source. -/
def is_comment_relevant_to_post (ct pc : List Char)
    (title : Option (List Char)) : Bool :=
  if ct.isEmpty || pc.isEmpty then false
  else
    let cclean := cleanFiller ct
    let pclean := cleanFiller pc
    let tclean := match title with | some t => cleanFiller t | none => []
    if pclean.length < 5 then true
    else
      let mcount := (meaninglessPatterns.map (countOccSub pclean)).sum
      if 2 * mcount > max pclean.length 1 then true
      else
        let cnorm := replaceAll ['용'] [] (replaceAll ['해'] []
          (replaceAll ['다'] [] (replaceAll ['어'] []
            (replaceAll ['네'] [] (replaceAll ['요'] [] cclean)))))
        if empathyComments.contains cnorm then true
        else
          let pk := extract_keywords pclean
          let tk := if tclean ≠ [] then extract_keywords tclean else []
          let ck := extract_keywords cclean
          if ck.any (fun k => pk.contains k) || ck.any (fun k => tk.contains k)
          then true
          else
            let pwords := (List.range (pclean.length - 2)).map
              (fun i => (pclean.drop i).take 3)
            let twords := (List.range (tclean.length - 2)).map
              (fun i => (tclean.drop i).take 3)
            if (pwords ++ twords).any (fun w => containsSub cclean w) then true
            else true

/-- Round to nearest, halves to even, of `num / den` (Python's `round`). The
source rounds the float `avg * 1.1`; on the small integer inputs involved the
exact rational agrees with the float. -/
def roundHalfEven (num den : Nat) : Nat :=
  let q := num / den
  let r := num % den
  if 2 * r < den then q
  else if 2 * r > den then q + 1
  else if q % 2 = 0 then q else q + 1

/-- `get_optimal_comment_length` (lines 2023–2037) with the default
`base_limit = 10`. -/
def get_optimal_comment_length (ecs : List (List Char)) : Nat :=
  if ecs.isEmpty then 10
  else
    let valid := ((ecs.filter
        (fun c => !c.isEmpty && decide (2 ≤ (stripWs c).length))).map
      (fun c => (stripWs c).length))
    if valid.isEmpty then 10
    else
      let s := valid.sum
      let n := valid.length
      if s ≤ 10 * n then 10
      else max 10 (min 15 (roundHalfEven (11 * s) (10 * n)))

end Kasino

/-- **C8.**  Evaluation of the profiler at the failing input: for the sampled
comment 부럽네요, whose stripped text ends in the longer known particle 네요,
the source's branch order (요 tested before 네요, lines 2300–2303) tallies the
short suffix 요, not 네요 — the longer-particle branches are dead code, while
the sibling `add_natural_typos` documents that longer patterns must be matched
first. -/
theorem C8_profiler_tallies_short_suffix :
    (Kasino.analyze_comment_style [['부', '럽', '네', '요']]).ending = ['요'] ∧
    (Kasino.analyze_comment_style [['부', '럽', '네', '요']]).ending
      ≠ ['네', '요'] :=
  ⟨by decide, by decide⟩

/-- **C9, amended.**  If the candidate and the body are both non-empty and the
body keeps fewer than 5 characters after stripping filler, the relevance
heuristic returns `true`. -/
theorem C9_short_body_relevant (ct pc : List Char) (title : Option (List Char))
    (hct : ct ≠ []) (hpc : pc ≠ [])
    (hlen : (Kasino.cleanFiller pc).length < 5) :
    Kasino.is_comment_relevant_to_post ct pc title = true := by
  unfold Kasino.is_comment_relevant_to_post
  simp [List.isEmpty_iff, hct, hpc, hlen]

/-- Witness for C9 on a concrete short body. -/
theorem C9_short_body_relevant_witness :
    Kasino.is_comment_relevant_to_post ['좋', '아', '요'] ['ㅎ', 'ㅎ'] none
      = true :=
  C9_short_body_relevant _ _ none (by decide) (by decide) (by decide)

/-- **C9, counterexample.**  An entirely empty body is rejected, not accepted:
`is_comment_relevant_to_post` returns `false` when the body is the empty
string (line 375–376), contradicting the claim that an empty body counts as
relevant. -/
theorem C9_empty_body_not_relevant :
    Kasino.is_comment_relevant_to_post ['좋', '아', '요'] [] none = false := by
  decide

namespace Kasino

/-!  ## ToneVariationEngine
(`enhance_tone_variation` lines 462–619, `add_natural_typos` lines 621–671).
Randomness is an explicit draw stream (see the header). -/

/-- Negative-body keywords of `_is_negative_content` (line 444). -/
def negContentKeywords : List (List Char) :=
  [['잃'], ['망'], ['눈', '물'], ['울'], ['아', '쉽'], ['후', '회'],
   ['슬', '프'], ['ㅠ'], ['ㅜ'], ['손', '실'], ['적', '자'], ['좌', '절'],
   ['힘', '들']]

/-- `_is_negative_content` (lines 440–445). -/
def is_negative_content (t : List Char) : Bool :=
  if t.isEmpty then false else negContentKeywords.any (containsSub t)

/-- Positive-comment keywords of `_is_positive_comment` (lines 451–452). -/
def posCommentKeywords : List (List Char) :=
  [['화', '이', '팅'], ['좋', '아'], ['대', '박'], ['축', '하'], ['부', '럽'],
   ['좋', '네'], ['좋', '다'], ['멋', '져'], ['최', '고'], ['응', '원'],
   ['파', '이', '팅'], ['와'], ['헐'], ['진', '짜'], ['개', '좋'], ['짱'],
   ['허', '걱'], ['와', '우']]

/-- `_is_positive_comment` (lines 447–453). -/
def is_positive_comment (t : List Char) : Bool :=
  if t.isEmpty then false else posCommentKeywords.any (containsSub t)

/-- Negative-comment keywords of `_is_negative_comment` (line 459). -/
def negCommentKeywords : List (List Char) :=
  [['아', '쉽'], ['슬', '프'], ['힘', '들'], ['후', '회'], ['아', '깝'],
   ['위', '로'], ['공', '감']]

/-- `_is_negative_comment` (lines 455–460). -/
def is_negative_comment (t : List Char) : Bool :=
  if t.isEmpty then false else negCommentKeywords.any (containsSub t)

/-- Drop the first `n` occurrences of `ch` (one `comment.replace(ch, '', 1)`
per unit of `n`). -/
def dropFirstN (ch : Char) : Nat → List Char → List Char
  | 0, l => l
  | _ + 1, [] => []
  | n + 1, c :: tl =>
    if c = ch then dropFirstN ch n tl else c :: dropFirstN ch (n + 1) tl

/-- Lines 486–489: while any of `~ ! ㅠ ㅜ` occurs more than twice, remove its
first occurrence, character by character in the listed order. -/
def trimSpecials (l : List Char) : List Char :=
  (['~', '!', 'ㅠ', 'ㅜ'] : List Char).foldl
    (fun acc ch => dropFirstN ch (countChar ch acc - 2) acc) l

/-- The polite-ending set of line 515:
`(요|세요|네요|어요|해요|되요|다요|까요|나요|지요)$`. -/
def politeEndings : List (List Char) :=
  [['요'], ['세', '요'], ['네', '요'], ['어', '요'], ['해', '요'], ['되', '요'],
   ['다', '요'], ['까', '요'], ['나', '요'], ['지', '요']]

/-- The last `n` characters of `l`. -/
def lastN (n : Nat) (l : List Char) : List Char :=
  l.drop (l.length - n)

/-- The two-character particles of the truncation regex (line 596). -/
def ending2Chars : List (List Char) :=
  [['네', '요'], ['어', '요'], ['해', '요'], ['되', '요'], ['다', '요'],
   ['세', '요'], ['까', '요'], ['나', '요'], ['지', '요']]

/-- The one-character particles of the truncation regex (line 596). -/
def ending1Chars : List (List Char) :=
  [['요'], ['죠'], ['다'], ['어'], ['해'], ['되'], ['까'], ['나'], ['세'],
   ['지'], ['야']]

/-- `re.search(r'(요|죠|네요|…|야)$', cc)` : because every alternative must
reach the end of the string, the match is the longest suffix of `cc` that is a
known particle (at most two characters). -/
def findEnding (cc : List Char) : Option (List Char) :=
  if ending2Chars.contains (lastN 2 cc) then some (lastN 2 cc)
  else if ending1Chars.contains (lastN 1 cc) then some (lastN 1 cc)
  else none

/-- The ending-preserving length cap (lines 591–617, duplicated at 2388–2408
and 2441–2461): over ten characters, keep the detected particle and the
decoration tail, trimming only the body; if particle plus tail already reach
the budget the tail is kept whole. -/
def truncateWithEnding (comment : List Char) : List Char :=
  if comment.length > 10 then
    let cc := stripWs (rstripAny decorChars comment)
    match findEnding cc with
    | some e =>
      let suffix := comment.drop cc.length
      if e.length + suffix.length < 10 then
        (cc.take (cc.length - e.length)).take (10 - e.length - suffix.length) ++ e
          ++ suffix
      else e ++ suffix
    | none => comment.take 10
  else comment

/-- One ending-typo substitution of `add_natural_typos`: replace the suffix by
a drawn variant. -/
def typoSwap (suf : List Char) (alts : List (List Char)) (comment : List Char)
    (d : Nat) : List Char :=
  comment.take (comment.length - suf.length) ++ pyChoice alts d

/-- The ending-typo `elif` chain of `add_natural_typos` (lines 634–654),
longest patterns first; a draw is consumed only in the branch taken. -/
def typoEndingStep (rng : List Nat) (comment : List Char) :
    List Char × List Nat :=
  if endsWith comment ['네', '요'] then
    let (d, rng') := next rng
    (typoSwap ['네', '요'] [['네', '욘'], ['네', '용'], ['네', '요']] comment d,
      rng')
  else if endsWith comment ['어', '요'] then
    let (d, rng') := next rng
    (typoSwap ['어', '요'] [['어', '욘'], ['어', '용'], ['어', '요']] comment d,
      rng')
  else if endsWith comment ['해', '요'] then
    let (d, rng') := next rng
    (typoSwap ['해', '요'] [['해', '욘'], ['해', '용'], ['해', '요']] comment d,
      rng')
  else if endsWith comment ['되', '요'] then
    let (d, rng') := next rng
    (typoSwap ['되', '요'] [['되', '욘'], ['되', '용'], ['되', '요']] comment d,
      rng')
  else if endsWith comment ['다', '요'] then
    let (d, rng') := next rng
    (typoSwap ['다', '요'] [['다', '욘'], ['다', '용'], ['다', '요']] comment d,
      rng')
  else if endsWith comment ['까', '요'] then
    let (d, rng') := next rng
    (typoSwap ['까', '요'] [['까', '욘'], ['까', '용'], ['까', '요']] comment d,
      rng')
  else if endsWith comment ['나', '요'] then
    let (d, rng') := next rng
    (typoSwap ['나', '요'] [['나', '욘'], ['나', '용'], ['나', '요']] comment d,
      rng')
  else if endsWith comment ['세', '요'] then
    let (d, rng') := next rng
    (typoSwap ['세', '요'] [['세', '욘'], ['세', '용'], ['세', '요']] comment d,
      rng')
  else if endsWith comment ['지', '요'] then
    let (d, rng') := next rng
    (typoSwap ['지', '요'] [['지', '욘'], ['지', '용'], ['지', '요']] comment d,
      rng')
  else if endsWith comment ['요'] then
    let (d, rng') := next rng
    (typoSwap ['요'] [['욘'], ['용'], ['요']] comment d, rng')
  else (comment, rng)

/-- Fourth inner-typo branch (line 664): 화이팅 → 파이팅 at 15 %. -/
def innerTypo4 (rng : List Nat) (c : List Char) : List Char × List Nat :=
  if containsSub c ['화', '이', '팅'] then
    let (r, rng') := next rng
    if r % 100 < 15 then
      (replaceFirst ['화', '이', '팅'] ['파', '이', '팅'] c, rng')
    else (c, rng')
  else (c, rng)

/-- Third inner-typo branch (line 662): 그래 → 그레 at 20 %. -/
def innerTypo3 (rng : List Nat) (c : List Char) : List Char × List Nat :=
  if containsSub c ['그', '래'] then
    let (r, rng') := next rng
    if r % 100 < 20 then (replaceFirst ['그', '래'] ['그', '레'] c, rng')
    else innerTypo4 rng' c
  else innerTypo4 rng c

/-- Second inner-typo branch (line 660): 맞아 → 마자 at 20 %. -/
def innerTypo2 (rng : List Nat) (c : List Char) : List Char × List Nat :=
  if containsSub c ['맞', '아'] then
    let (r, rng') := next rng
    if r % 100 < 20 then (replaceFirst ['맞', '아'] ['마', '자'] c, rng')
    else innerTypo3 rng' c
  else innerTypo3 rng c

/-- The word-internal typo chain (lines 657–665), run only when no ending typo
was applied (value comparison with the original). -/
def innerTypos (rng : List Nat) (original c : List Char) :
    List Char × List Nat :=
  if c ≠ original then (c, rng)
  else if containsSub c ['좋', '아'] then
    let (r, rng') := next rng
    if r % 100 < 30 then (replaceFirst ['좋', '아'] ['조', '아'] c, rng')
    else innerTypo2 rng' c
  else innerTypo2 rng c

/-- `add_natural_typos` (lines 621–671): with 25 % probability substitute one
typo variant; revert when the result exceeds ten characters. -/
def add_natural_typos (rng : List Nat) (comment : List Char) :
    List Char × List Nat :=
  if comment.isEmpty || comment.length < 2 then (comment, rng)
  else
    let (r, rng1) := next rng
    if 25 < r % 100 then (comment, rng1)
    else
      let original := comment
      let (c1, rng2) := typoEndingStep rng1 comment
      let (c2, rng3) := innerTypos rng2 original c1
      (if c2.length > 10 then original else c2, rng3)

/-- Decoration add with budget handling, variant with the final replace-tail
case (lines 549–555 and 566–572). -/
def addOrReplace (c cand : List Char) : List Char :=
  if c.length + cand.length ≤ 10 then c ++ cand
  else if c.length < 10 then (c ++ cand).take 10
  else c.take (c.length - cand.length) ++ cand

/-- Decoration add with budget handling, variant without a fallback case
(lines 541–544 and 557–562). -/
def addNoReplace (c cand : List Char) : List Char :=
  if c.length + cand.length ≤ 10 then c ++ cand
  else if c.length < 10 then (c ++ cand).take 10
  else c

/-- The polite-ending decoration candidate (lines 516–539): style flags first,
then sentiment, defaulting to a tilde. -/
def politeCandidate (style? : Option Style) (comment : List Char) : List Char :=
  match style? with
  | some st =>
    if st.hasSob && is_negative_comment comment then ['ㅠ']
    else if st.hasExclamation && is_positive_comment comment then ['!']
    else if st.hasTilde then ['~']
    else if is_negative_comment comment then ['ㅠ']
    else if is_positive_comment comment then ['!']
    else ['~']
  | none =>
    if is_negative_comment comment then ['ㅠ']
    else if is_positive_comment comment then ['!']
    else ['~']

/-- The non-polite decoration branch (lines 546–572): sob marks for negative
content (drawn between ㅠ and ㅠㅠ), a bang for positive comments, otherwise a
tilde-weighted draw. -/
def nonPoliteAdd (rng : List Nat) (comment pc : List Char) :
    List Char × List Nat :=
  if is_negative_content (if pc.isEmpty then comment else pc)
      || is_negative_comment comment then
    let (d, rng') := next rng
    (addOrReplace comment (pyChoice [['ㅠ'], ['ㅠ', 'ㅠ']] d), rng')
  else if is_positive_comment comment then
    (addNoReplace comment ['!'], rng)
  else
    let (d, rng') := next rng
    (addOrReplace comment (pyChoice [['~'], ['~'], ['!']] d), rng')

/-- The decoration-adding block (lines 495–572), entered when the comment has
none of `~ ! ㅠ`: the probability threshold comes from the style profile, and
`should_add_emoji` is cleared when the sampled comments barely use symbols. -/
def addDecoration (rng : List Nat) (style? : Option Style)
    (cwq comment pc : List Char) : List Char × List Nat :=
  let probPct : Nat :=
    match style? with
    | none => 95
    | some st =>
      if st.rateLt 1 10 then 30
      else if st.rateLt 3 10 then 70
      else if st.rateGe 1 2 then 98
      else 95
  let shouldAdd : Bool :=
    match style? with
    | none => true
    | some st => !(!st.hasEmoji && st.rateLt 1 10)
  if shouldAdd then
    let (r, rng') := next rng
    if r % 100 < probPct then
      if politeEndings.any (fun e => endsWith cwq e) then
        (addNoReplace comment (politeCandidate style? comment), rng')
      else nonPoliteAdd rng' comment pc
    else (comment, rng')
  else (comment, rng)

/-- The terminal-mark variation block (lines 581–586). -/
def endVariation (rng : List Nat) (comment : List Char) :
    List Char × List Nat :=
  if endsWith comment ['~'] then
    let (r, rng') := next rng
    if r % 100 < 30 then
      let (d, rng'') := next rng'
      (comment.dropLast
        ++ pyChoice [['~', '!'], ['요', '~'], ['요', '!']] d, rng'')
    else (comment, rng')
  else if endsWith comment ['!'] then
    let (r, rng') := next rng
    if r % 100 < 20 then
      (if comment.length + 1 ≤ 10 then comment ++ ['~'] else comment, rng')
    else (comment, rng')
  else (comment, rng)

/-- `enhance_tone_variation` up to but excluding the final length cap
(lines 462–589).  The `has_ending` computed at lines 473–480 is never read
afterwards in the source and is therefore not materialised. -/
def enhancePre (rng : List Nat) (comment_text pc : List Char)
    (ecs : List (List Char)) : List Char × List Nat :=
  let comment := stripWs comment_text
  let style? : Option Style :=
    if !ecs.isEmpty then some (analyze_comment_style ecs) else none
  let cwq := rstripChar '?' comment
  let specialCount := countChar '~' comment + countChar '!' comment
    + countChar 'ㅠ' comment + countChar 'ㅜ' comment
  let comment := if specialCount > 3 then trimSpecials comment else comment
  let (comment, rng) :=
    if ¬(comment.contains '~' || comment.contains '!' || comment.contains 'ㅠ')
    then addDecoration rng style? cwq comment pc
    else (comment, rng)
  let comment := collapseRunGe (· = '~') 2 ['~'] comment
  let comment := collapseRunGe (· = '!') 2 ['!'] comment
  let (comment, rng) := endVariation rng comment
  add_natural_typos rng comment

/-- `enhance_tone_variation` (lines 462–619): the cosmetic pass followed by
the ending-preserving length cap. -/
def enhance_tone_variation (rng : List Nat) (comment_text pc : List Char)
    (ecs : List (List Char)) : List Char × List Nat :=
  if comment_text.isEmpty then (comment_text, rng)
  else
    (truncateWithEnding (enhancePre rng comment_text pc ecs).1,
      (enhancePre rng comment_text pc ecs).2)

end Kasino

namespace Kasino

/-- The particle the length cap would preserve: the longest known suffix of
the comment after stripping decorations and whitespace. -/
def truncEndingOf (c : List Char) : Option (List Char) :=
  findEnding (stripWs (rstripAny decorChars c))

/-- The decoration tail the length cap preserves: everything past the length
of the stripped core (the source indexes the original string with that
length). -/
def truncTailOf (c : List Char) : List Char :=
  c.drop (stripWs (rstripAny decorChars c)).length

/-- The length cap either stays within the ten-character budget or keeps the
detected particle together with the whole decoration tail, which then reaches
or exceeds the budget. -/
theorem truncateWithEnding_le_or_tail (c : List Char) :
    (truncateWithEnding c).length ≤ 10 ∨
    (truncateWithEnding c = (truncEndingOf c).getD [] ++ truncTailOf c ∧
      10 ≤ (truncateWithEnding c).length) := by
  unfold truncateWithEnding truncEndingOf truncTailOf
  by_cases hlen : c.length > 10
  · simp only [hlen, if_true]
    rcases hfe : findEnding (stripWs (rstripAny decorChars c)) with _ | e
    · left
      simp
    · simp only []
      by_cases hsm :
          e.length + (c.drop (stripWs (rstripAny decorChars c)).length).length
            < 10
      · left
        simp only [hsm, if_true]
        have h1 := List.length_take_le
          (10 - e.length
            - (c.drop (stripWs (rstripAny decorChars c)).length).length)
          ((stripWs (rstripAny decorChars c)).take
            ((stripWs (rstripAny decorChars c)).length - e.length))
        simp only [List.length_append]
        omega
      · right
        constructor
        · simp only [hsm, if_false, hfe, Option.getD_some]
        · simp only [hsm, if_false, List.length_append]
          omega
  · left
    simp only [hlen, if_false]
    omega

end Kasino

/-- **C3, counterexample.**  The tone-variation output is not always within
the ten-character budget: on the input 좋다 followed by eleven question marks
(and the empty draw stream — every draw stream gives the same answer here) the
final cap keeps the particle 다 and the whole tail of question marks, emitting
twelve characters. -/
theorem C3_enhance_budget_violated :
    (Kasino.enhance_tone_variation []
        ['좋', '다', '?', '?', '?', '?', '?', '?', '?', '?', '?', '?', '?']
        [] []).1.length = 12 ∧ 10 < 12 :=
  ⟨by rfl, by norm_num⟩

/-- **C3, amended.**  For every input string, draw stream, post body and
sampled comments, the tone-variation output is at most ten characters unless
the final cap finds that the detected ending particle plus the trailing
decoration tail alone reach the budget, in which case that tail is kept whole
(and only then may the output exceed ten characters); a decorative addition
that would exceed the budget is truncated into the budget or substituted for
the tail rather than extending the text. -/
theorem C3_enhance_budget (rng : List Nat) (ct pc : List Char)
    (ecs : List (List Char)) :
    (Kasino.enhance_tone_variation rng ct pc ecs).1.length ≤ 10 ∨
    ((Kasino.enhance_tone_variation rng ct pc ecs).1
        = (Kasino.truncEndingOf (Kasino.enhancePre rng ct pc ecs).1).getD []
          ++ Kasino.truncTailOf (Kasino.enhancePre rng ct pc ecs).1 ∧
      10 ≤ (Kasino.enhance_tone_variation rng ct pc ecs).1.length) := by
  cases ct with
  | nil =>
    left
    show ([] : List Char).length ≤ 10
    simp
  | cons c tl =>
    have he : (Kasino.enhance_tone_variation rng (c :: tl) pc ecs).1
        = Kasino.truncateWithEnding (Kasino.enhancePre rng (c :: tl) pc ecs).1 := by
      simp only [Kasino.enhance_tone_variation, List.isEmpty_cons,
        Bool.false_eq_true, if_false]
    rw [he]
    exact Kasino.truncateWithEnding_le_or_tail _

namespace Kasino

/-!  ## FallbackGenerator (`generate_style_matched_comment` lines 2360–2475)

The call to `extract_common_words_from_comments` at line 2366 is a dead store
(its result is never read in this function) and is not materialised. -/

/-- The default sentence 지치네요. -/
def jichineyo : List Char := ['지', '치', '네', '요']

/-- Candidate harvesting from the first ten existing comments
(lines 2372–2382): the stripped text without trailing decorations when it has
2–10 characters, plus its six-character prefix when longer than six. -/
def styleCandidates (ecs : List (List Char)) : List (List Char) :=
  (ecs.take 10).foldl (fun acc c =>
    if !c.isEmpty && decide (2 ≤ (stripWs c).length) then
      let clean := rstripAny decorChars (stripWs c)
      let acc :=
        if decide (2 ≤ clean.length) && decide (clean.length ≤ 10) then
          acc ++ [clean]
        else acc
      if 6 < clean.length then acc ++ [clean.take 6] else acc
    else acc) []

/-- Loss keywords selecting the commiseration bucket (line 2425). -/
def negPostTokens : List (List Char) :=
  [['잃'], ['후', '회'], ['참', '담'], ['정', '신', '차', '리'],
   ['못', '하', '겠']]

/-- Gain keywords selecting the congratulation bucket (line 2427). -/
def posPostTokens : List (List Char) :=
  [['땄'], ['성', '공'], ['이', '득'], ['좋', '아']]

/-- The commiseration bucket (line 2426). -/
def negBase : List (List Char) :=
  [['힘', '내'], ['아', '쉽'], ['공', '감'], ['위', '로'], ['다', '음', '엔'],
   ['조', '심']]

/-- The congratulation bucket (line 2428). -/
def posBase : List (List Char) :=
  [['축', '하'], ['부', '럽'], ['대', '박'], ['좋', '아'], ['응', '원']]

/-- The neutral base vocabulary (lines 2418–2421). -/
def baseComments : List (List Char) :=
  [['힘', '내'], ['아', '쉽'], ['공', '감'], ['위', '로'], ['좋', '아'],
   ['응', '원'], ['화', '이', '팅'], ['다', '음', '엔'], ['조', '심'],
   ['축', '하'], ['부', '럽'], ['대', '박']]

/-- The base-branch decoration rolls (lines 2435–2439): a tilde at 50 % when
the profile favours tildes, otherwise a bang at 50 % when it favours bangs. -/
def baseEmoji (rng : List Nat) (style : Style) (comment : List Char) :
    List Char × List Nat :=
  if style.hasEmoji then
    if style.hasTilde then
      let (r, rng') := next rng
      if r % 100 < 50 then (comment ++ ['~'], rng')
      else if style.hasExclamation then
        let (r2, rng'') := next rng'
        (if r2 % 100 < 50 then comment ++ ['!'] else comment, rng'')
      else (comment, rng')
    else if style.hasExclamation then
      let (r, rng') := next rng
      (if r % 100 < 50 then comment ++ ['!'] else comment, rng')
    else (comment, rng)
  else (comment, rng)

/-- `generate_style_matched_comment` (lines 2360–2475).  The truncation blocks
at lines 2389–2408 and 2442–2461 are verbatim copies of the `truncateWithEnding`
block of `enhance_tone_variation`. -/
def generate_style_matched_comment (rng : List Nat) (ecs : List (List Char))
    (pc : List Char) : List Char × List Nat :=
  if ecs.isEmpty then (jichineyo, rng)
  else
    let style := analyze_comment_style ecs
    let candidates := styleCandidates ecs
    if !candidates.isEmpty then
      let (d, rng') := next rng
      let selected := truncateWithEnding (pyChoice candidates d)
      let er := enhance_tone_variation rng' selected pc ecs
      (clean_comment_final_only er.1, er.2)
    else
      let base :=
        if !pc.isEmpty && negPostTokens.any (containsSub pc) then negBase
        else if !pc.isEmpty && posPostTokens.any (containsSub pc) then posBase
        else baseComments
      let (d, rng') := next rng
      let be := baseEmoji rng' style (pyChoice base d)
      let comment := truncateWithEnding be.1
      let comment :=
        if !has_meaningful_content comment then jichineyo else comment
      let er := enhance_tone_variation be.2 comment pc ecs
      (clean_comment_final_only er.1, er.2)

/-!  ## GenerationClient contract and the AI paths
(`generate_ai_comment` lines 2709–3406, `generate_ai_comment_retry` lines
3408–3638).

The transport (aiohttp), prompt assembly and JSON decoding are external
collaborators; a remote exchange is modelled as a `RemoteResp` carrying the
HTTP status and the already-extracted message content, with every non-200
status standing for the uniformly handled failure paths (error status,
timeout, exception), all of which fall back to the style-matched generator.
`difflib.SequenceMatcher` (standard library) behind `is_comment_too_similar`
is abstracted as the predicate parameter `tooSim`. -/

/-- The generation-service configuration: the OpenAI API key (`None` when the
environment variable is absent). -/
structure Config where
  apiKey : Option (List Char)
  deriving Repr, DecidableEq

/-- The key check of lines 2717–2723: a key is usable when it is a non-empty,
non-whitespace string. -/
def Config.keyOk (cfg : Config) : Bool :=
  match cfg.apiKey with
  | some k => !k.isEmpty && !(stripWs k).isEmpty
  | none => false

/-- One remote generation exchange: HTTP status and extracted content. -/
structure RemoteResp where
  status : Nat
  text : List Char
  deriving Repr, DecidableEq

/-- The label `이유:`. -/
def iyuTag : List Char := ['이', '유', ':']

/-- The label `댓글:`. -/
def daetgeulTag : List Char := ['댓', '글', ':']

/-- The rejected placeholder reason `이유 없음`. -/
def iyuEopsum : List Char := ['이', '유', ' ', '없', '음']

/-- The banned gratitude word `감사`. -/
def gamsa : List Char := ['감', '사']

/-- ASCII lowering (`str.lower()`; identity on Hangul). -/
def toLowerAscii (l : List Char) : List Char :=
  l.map (fun c =>
    if 'A' ≤ c ∧ c ≤ 'Z' then Char.ofNat (c.toNat + 32) else c)

/-- The formulaic-comment blocklist of lines 3286–3300. -/
def forbiddenComments : List (List Char) :=
  [['좋', '은', ' ', '글', ' ', '감', '사', '합', '니', '다'],
   ['좋', '은', ' ', '정', '보', ' ', '감', '사', '합', '니', '다'],
   ['유', '용', '한', ' ', '정', '보', '네', '요'],
   ['유', '용', '한', ' ', '정', '보', ' ', '감', '사', '합', '니', '다'],
   ['잘', ' ', '읽', '었', '습', '니', '다'],
   ['도', '움', '이', ' ', '되', '었', '어', '요'],
   ['도', '움', '이', ' ', '됐', '어', '요'],
   ['도', '움', '이', ' ', '되', '었', '습', '니', '다'],
   ['감', '사', '합', '니', '다'],
   ['감', '사', '해', '요'],
   ['감', '사'],
   ['좋', '은', ' ', '글'],
   ['유', '용', '한', ' ', '정', '보']]

/-- The `이유:`/`댓글:` response parser shared by both AI paths
(lines 3235–3257 and 3581–3603).  `none` means the main path must retry (or
the retry path must fall back); `some (comment, strict)` carries the parsed
comment, where `strict` records whether the strict two-label format was
required (main path) — in the lenient retry path a missing label keeps the
whole response. -/
def parseAiResponse (strict : Bool) (ai : List Char) :
    Option (List Char) :=
  if containsSub ai iyuTag && containsSub ai daetgeulTag then
    let parts := splitOnSub daetgeulTag ai
    if parts.length = 2 then
      let reason := stripWs (replaceAll iyuTag [] (parts.headD []))
      let comment := stripWs ((parts.get? 1).getD [])
      if reason.isEmpty || reason = iyuEopsum
          || (stripWs reason).length < 5 then
        none
      else some comment
    else some []
  else if containsSub ai daetgeulTag then
    if strict then none
    else
      let parts := splitOnSub daetgeulTag ai
      if parts.length = 2 then some (stripWs ((parts.get? 1).getD []))
      else some []
  else if strict then none
  else some ai

/-- The completeness gate shared by both AI paths (lines 3259–3269 and
3605–3613): reject when fewer than two core characters remain, or when three
or more remain without a known sentence-final particle. -/
def lacksProperEnding (comment : List Char) : Bool :=
  let cc := stripWs (rstripAny decorChars comment)
  decide (cc.length < 2)
    || (decide (3 ≤ cc.length) && !(findEnding cc).isSome)

/-- `generate_ai_comment_retry` (lines 3408–3638).  A `None` API key raises
`AttributeError` on `.strip()` inside the `try`, which the handler at line
3635 turns into the style-matched fallback; a failed request does the same. -/
def generate_ai_comment_retry (cfg : Config) (pc : List Char)
    (ecs : List (List Char)) (retry_count : Nat) (respR : RemoteResp)
    (rng : List Nat) : List Char × List Nat :=
  if retry_count = 0 then generate_style_matched_comment rng ecs pc
  else if cfg.apiKey.isNone then generate_style_matched_comment rng ecs pc
  else if respR.status ≠ 200 then generate_style_matched_comment rng ecs pc
  else
    match parseAiResponse false (stripWs respR.text) with
    | none => generate_style_matched_comment rng ecs pc
    | some comment =>
      if lacksProperEnding comment then generate_style_matched_comment rng ecs pc
      else
        let comment := stripChar '\'' (stripChar '"' comment)
        let comment := clean_comment comment
        if comment.length > get_optimal_comment_length ecs then
          generate_style_matched_comment rng ecs pc
        else
          let comment := replaceAll ['입', '니', '다'] ['요'] comment
          let comment := replaceAll ['입', '니', '다', '.'] ['요'] comment
          (clean_comment comment, rng)

/-- Provenance of a generation result: the direct AI success path, the retry
path, or the style-matched fallback. -/
inductive Prov
  | direct
  | retry
  | fallback
  deriving Repr, DecidableEq

/-- A tagged generation result. -/
structure GenOut where
  prov : Prov
  text : List Char
  deriving Repr, DecidableEq

/-- Delegate to the retry path with `retry_count = 1` (each `return await
self.generate_ai_comment_retry(...)` site of the main path). -/
def retryOut (cfg : Config) (pc : List Char) (ecs : List (List Char))
    (respR : RemoteResp) (rng : List Nat) : GenOut × List Nat :=
  let r := generate_ai_comment_retry cfg pc ecs 1 respR rng
  (⟨.retry, r.1⟩, r.2)

/-- Fall back to the style-matched generator (tagged). -/
def fallbackOut (rng : List Nat) (ecs : List (List Char)) (pc : List Char) :
    GenOut × List Nat :=
  let r := generate_style_matched_comment rng ecs pc
  (⟨.fallback, r.1⟩, r.2)

/-- The 200-status post-processing of `generate_ai_comment`
(lines 3227–3358): parse, completeness gate, quote strip, 감사 filter,
blocklist (checked twice in the source with identical outcome), length gate,
입니다→요, normalization, the final 감사 safeguard, and the similarity
regeneration. -/
def aiSuccess (cfg : Config) (tooSim : List Char → Bool) (pc : List Char)
    (ecs : List (List Char)) (respR : RemoteResp) (ai : List Char)
    (rng : List Nat) : GenOut × List Nat :=
  match parseAiResponse true ai with
  | none => retryOut cfg pc ecs respR rng
  | some comment =>
    if lacksProperEnding comment then retryOut cfg pc ecs respR rng
    else
      let comment := stripChar '\'' (stripChar '"' comment)
      if containsSub comment gamsa then retryOut cfg pc ecs respR rng
      else if forbiddenComments.any (containsSub (toLowerAscii comment)) then
        retryOut cfg pc ecs respR rng
      else if comment.length > get_optimal_comment_length ecs then
        retryOut cfg pc ecs respR rng
      else
        let comment := replaceAll ['입', '니', '다'] ['요'] comment
        let comment := replaceAll ['입', '니', '다', '.'] ['요'] comment
        let comment := replaceAll ['입', '니', '다', '!'] ['요'] comment
        let comment := clean_comment comment
        if containsSub comment gamsa then fallbackOut rng ecs pc
        else if !ecs.isEmpty && tooSim comment then
          let rg := generate_ai_comment_retry cfg pc ecs 1 respR rng
          if !rg.1.isEmpty && !tooSim rg.1 then (⟨.retry, rg.1⟩, rg.2)
          else fallbackOut rg.2 ecs pc
        else (⟨.direct, comment⟩, rng)

/-- `generate_ai_comment` (lines 2709–3406): the remote gates (key presence,
body length) followed by the response dispatch.  The second component records
whether a remote call was attempted. -/
def generate_ai_comment (cfg : Config) (tooSim : List Char → Bool)
    (pc : List Char) (ecs : List (List Char)) (resp respR : RemoteResp)
    (rng : List Nat) : GenOut × Bool × List Nat :=
  if !cfg.keyOk then
    let sm := generate_style_matched_comment rng ecs pc
    (⟨.fallback, sm.1⟩, false, sm.2)
  else if pc.isEmpty || (stripWs pc).length < 10 then
    let sm := generate_style_matched_comment rng ecs pc
    (⟨.fallback, sm.1⟩, false, sm.2)
  else if resp.status ≠ 200 then
    let sm := generate_style_matched_comment rng ecs pc
    (⟨.fallback, sm.1⟩, true, sm.2)
  else
    let out := aiSuccess cfg tooSim pc ecs respR (stripWs resp.text) rng
    (out.1, true, out.2)

end Kasino

namespace Kasino

/-!  ## Anti-repetition orchestration and the per-post driver
(`ensure_non_repeating_comment` lines 691–723, `write_comment` lines
3640–3902).  Browser navigation, page extraction and submission are external
collaborators; the driver model covers the decision core: page-age gate,
no-comment skip, generation, the meaningful-content loop, normalization,
relevance gate, anti-repetition, tone variation and the final cleanup.
`is_comment_recent` only shrinks the store by its cleanup, which cannot change
the answer of a later query at the same instant, so the store is threaded
unchanged through the loop. -/

/-- The bounded anti-repetition loop (lines 696–715), with `fuel` counting the
remaining attempts out of three; `Sum.inl` carries the draw stream out of the
`break`/exhaustion exits into the fallback tail. -/
def ensureAux (cfg : Config) (window now : Nat) (hist : List CommentRecord)
    (pc : List Char) (ecs : List (List Char)) (respR : RemoteResp) :
    Nat → List Char → List Nat → Sum (List Nat) (List Char × List Nat)
  | 0, _, rng => Sum.inl rng
  | fuel + 1, ct, rng =>
    if !(is_comment_recent window now hist ct).1.1 then Sum.inr (ct, rng)
    else
      let attempts := 3 - (fuel + 1)
      let ar :=
        if attempts = 2 then generate_style_matched_comment rng ecs pc
        else generate_ai_comment_retry cfg pc ecs (attempts + 1) respR rng
      if ar.1.isEmpty then Sum.inl ar.2
      else
        let ar :=
          if ar.1 = ct then
            let alt := ar.1 ++ ['~']
            if !has_meaningful_content alt then
              let sm := generate_style_matched_comment ar.2 ecs pc
              if !has_meaningful_content sm.1 then (jichineyo, sm.2) else sm
            else (alt, ar.2)
          else ar
        let er := enhance_tone_variation ar.2 ar.1 pc ecs
        ensureAux cfg window now hist pc ecs respR fuel er.1 er.2

/-- `ensure_non_repeating_comment` (lines 691–723): the loop followed by the
fallback tail (style-matched comment, `~` de-duplication against the original,
meaningful-content floor, tone variation). -/
def ensure_non_repeating_comment (cfg : Config) (window now : Nat)
    (hist : List CommentRecord) (pc : List Char) (ecs : List (List Char))
    (respR : RemoteResp) (ct : List Char) (rng : List Nat) :
    List Char × List Nat :=
  match ensureAux cfg window now hist pc ecs respR 3 ct rng with
  | Sum.inr res => res
  | Sum.inl rng' =>
    let fb := generate_style_matched_comment rng' ecs pc
    let fbText := if fb.1 = ct then fb.1 ++ ['~'] else fb.1
    let fbText := if !has_meaningful_content fbText then jichineyo else fbText
    enhance_tone_variation fb.2 fbText pc ecs

/-- Outcome of one `write_comment` visit. -/
inductive Outcome
  | skippedOld
  | skippedNoComments (url : List Char)
  | skippedIrrelevant (url : List Char)
  | failedEmptyComment
  | posted (text : List Char)
  deriving Repr, DecidableEq

/-- Result of the `write_comment` decision core: the outcome and whether any
comment generation was invoked. -/
structure CoreResult where
  outcome : Outcome
  genInvoked : Bool
  deriving Repr, DecidableEq

/-- The meaningful-content loop of `write_comment` (lines 3813–3827):
up to two AI retries, then a style-matched comment, then the fixed sentence. -/
def meaningfulLoop (cfg : Config) (pc : List Char) (ecs : List (List Char))
    (respR : RemoteResp) (ct : List Char) (rng : List Nat) :
    List Char × List Nat :=
  if has_meaningful_content ct then (ct, rng)
  else
    let c1 := generate_ai_comment_retry cfg pc ecs 1 respR rng
    if has_meaningful_content c1.1 then c1
    else
      let c2 := generate_ai_comment_retry cfg pc ecs 2 respR c1.2
      if has_meaningful_content c2.1 then c2
      else
        let c3 := generate_style_matched_comment c2.2 ecs pc
        if has_meaningful_content c3.1 then c3 else (jichineyo, c3.2)

/-- The generation stage of `write_comment` (lines 3790–3830): the AI call
with the 감사 safeguard when the body is long enough, the style-matched
generator otherwise, then the meaningful-content loop, the fixed-sentence
floor and the normalizer. -/
def coreDraft (cfg : Config) (tooSim : List Char → Bool) (pc : List Char)
    (ecs : List (List Char)) (resp respR : RemoteResp) (rng : List Nat) :
    List Char × List Nat :=
  let ctr :=
    if !pc.isEmpty && 10 < (stripWs pc).length then
      let g := generate_ai_comment cfg tooSim pc ecs resp respR rng
      if containsSub g.1.text gamsa then
        generate_style_matched_comment g.2.2 ecs pc
      else (g.1.text, g.2.2)
    else generate_style_matched_comment rng ecs pc
  let ctr := meaningfulLoop cfg pc ecs respR ctr.1 ctr.2
  (clean_comment ctr.1, ctr.2)

/-- The decision core of `write_comment` (lines 3640–3902): `hoursOk` is the
24-hour freshness gate of lines 3700–3728, `url` the current page URL recorded
into the handled-posts store on a skip, `title`/`pc`/`ecs` the extracted page
data, `resp`/`respR` the remote exchanges of the main and retry AI calls. -/
def write_comment_core (cfg : Config) (tooSim : List Char → Bool)
    (window now : Nat) (hist : List CommentRecord) (hoursOk : Bool)
    (url : List Char) (title : Option (List Char)) (pc : List Char)
    (ecs : List (List Char)) (resp respR : RemoteResp) (rng : List Nat) :
    CoreResult :=
  if !hoursOk then ⟨.skippedOld, false⟩
  else if ecs.isEmpty then ⟨.skippedNoComments url, false⟩
  else
    let d := coreDraft cfg tooSim pc ecs resp respR rng
    if !is_comment_relevant_to_post d.1 pc title then
      ⟨.skippedIrrelevant url, true⟩
    else
      let ctr2 := ensure_non_repeating_comment cfg window now hist pc ecs respR
        d.1 d.2
      if ctr2.1.isEmpty then ⟨.failedEmptyComment, true⟩
      else
        let er := enhance_tone_variation ctr2.2 ctr2.1 pc ecs
        ⟨.posted (clean_comment_final_only er.1), true⟩

end Kasino

namespace Kasino

/-- A sequence of `generate_ai_comment` calls, one per visited post, threading
the draw stream: the run model for C4.  Each element pairs the visited post
(body, existing comments) with the remote exchanges of that call; the output
records each call's result and whether it attempted a remote call. -/
def aiRun (cfg : Config) (tooSim : List Char → Bool) :
    List Nat → List ((List Char × List (List Char)) × RemoteResp × RemoteResp) →
    List (GenOut × Bool)
  | _, [] => []
  | rng, pr :: rest =>
    let g := generate_ai_comment cfg tooSim pr.1.1 pr.1.2 pr.2.1 pr.2.2 rng
    (g.1, g.2.1) :: aiRun cfg tooSim g.2.2 rest

/-- A long-enough post body (Scenario A's 오늘 완전 대박 났어요 기분 좋네요). -/
def scenABody : List Char :=
  ['오', '늘', ' ', '완', '전', ' ', '대', '박', ' ', '났', '어', '요', ' ',
   '기', '분', ' ', '좋', '네', '요']

/-- Two identical visits whose generation service answers 401 both times. -/
def c4Run : List (GenOut × Bool) :=
  aiRun ⟨some ['s', 'k']⟩ (fun _ => false) []
    [((scenABody, [['부', '럽', '네', '요', '~']]), ⟨401, []⟩, ⟨401, []⟩),
     ((scenABody, [['부', '럽', '네', '요', '~']]), ⟨401, []⟩, ⟨401, []⟩)]

/-- If `aiSuccess` returns a direct-path result, its text passed the final
감사 safeguard and cannot contain 감사. -/
theorem aiSuccess_direct_gamsa_free (cfg : Config) (tooSim : List Char → Bool)
    (pc : List Char) (ecs : List (List Char)) (respR : RemoteResp)
    (ai : List Char) (rng : List Nat) (t : List Char) (rng' : List Nat)
    (h : aiSuccess cfg tooSim pc ecs respR ai rng
        = (⟨Prov.direct, t⟩, rng')) :
    containsSub t gamsa = false := by
  simp only [aiSuccess, retryOut, fallbackOut] at h
  split at h
  · simp at h
  · split at h
    · simp at h
    · split at h
      · simp at h
      · split at h
        · simp at h
        · split at h
          · simp at h
          · split at h
            · simp at h
            · split at h
              · split at h
                · simp at h
                · simp at h
              · simp only [Prod.mk.injEq, GenOut.mk.injEq] at h
                rcases h with ⟨⟨_, ht⟩, _⟩
                subst ht
                simp_all

end Kasino

/-- **C10.**  A visited post with zero existing comments is skipped: the core
records the current page URL into the handled-posts store and returns `False`
without invoking any comment generation. -/
theorem C10_no_comments_skip (cfg : Kasino.Config) (tooSim : List Char → Bool)
    (window now : Nat) (hist : List Kasino.CommentRecord) (url : List Char)
    (title : Option (List Char)) (pc : List Char)
    (resp respR : Kasino.RemoteResp) (rng : List Nat) :
    Kasino.write_comment_core cfg tooSim window now hist true url title pc []
        resp respR rng
      = ⟨Kasino.Outcome.skippedNoComments url, false⟩ := rfl

/-- **C1, counterexample.**  The pipeline can end without producing any
comment for a visited post: on a post with zero existing comments the core
stops before generation, so no comment candidate exists for that post. -/
theorem C1_pipeline_not_total :
    Kasino.write_comment_core ⟨none⟩ (fun _ => false) 900 0 [] true ['u'] none
        ['ㅎ', 'ㅎ'] [] ⟨0, []⟩ ⟨0, []⟩ []
      = ⟨Kasino.Outcome.skippedNoComments ['u'], false⟩ := rfl

/-- **C1, amended.**  Whenever a visited post reaches the generation stage and
passes the remaining gates — it is fresh, has at least one existing comment,
the drafted comment passes the relevance check, and the anti-repetition stage
returns a non-empty text — the pipeline terminates with a posted comment
candidate; every generation failure branch returns the fallback generator's
output, which is what makes the stage total. -/
theorem C1_generation_stage_total (cfg : Kasino.Config)
    (tooSim : List Char → Bool) (window now : Nat)
    (hist : List Kasino.CommentRecord) (url : List Char)
    (title : Option (List Char)) (pc : List Char) (e : List Char)
    (es : List (List Char)) (resp respR : Kasino.RemoteResp) (rng : List Nat)
    (hrel : Kasino.is_comment_relevant_to_post
        (Kasino.coreDraft cfg tooSim pc (e :: es) resp respR rng).1 pc title
        = true)
    (hne : (Kasino.ensure_non_repeating_comment cfg window now hist pc
        (e :: es) respR (Kasino.coreDraft cfg tooSim pc (e :: es) resp respR rng).1
        (Kasino.coreDraft cfg tooSim pc (e :: es) resp respR rng).2).1.isEmpty
        = false) :
    ∃ t, (Kasino.write_comment_core cfg tooSim window now hist true url title
        pc (e :: es) resp respR rng).outcome = Kasino.Outcome.posted t := by
  have hcore : Kasino.write_comment_core cfg tooSim window now hist true url
      title pc (e :: es) resp respR rng
      = ⟨Kasino.Outcome.posted (Kasino.clean_comment_final_only
          (Kasino.enhance_tone_variation
            (Kasino.ensure_non_repeating_comment cfg window now hist pc
              (e :: es) respR
              (Kasino.coreDraft cfg tooSim pc (e :: es) resp respR rng).1
              (Kasino.coreDraft cfg tooSim pc (e :: es) resp respR rng).2).2
            (Kasino.ensure_non_repeating_comment cfg window now hist pc
              (e :: es) respR
              (Kasino.coreDraft cfg tooSim pc (e :: es) resp respR rng).1
              (Kasino.coreDraft cfg tooSim pc (e :: es) resp respR rng).2).1
            pc (e :: es)).1), true⟩ := by
    simp only [Kasino.write_comment_core, Bool.not_true, Bool.false_eq_true,
      if_false, List.isEmpty_cons, hrel, hne]
  exact ⟨_, by rw [hcore]⟩

/-- Witness for C1 on a concrete short-body post with one niceness comment. -/
theorem C1_generation_stage_total_witness :
    ∃ t, (Kasino.write_comment_core ⟨none⟩ (fun _ => false) 900 0 [] true
        ['u'] none ['ㅎ', 'ㅎ'] [['부', '럽', '네', '요', '~']] ⟨0, []⟩ ⟨0, []⟩
        []).outcome = Kasino.Outcome.posted t :=
  C1_generation_stage_total ⟨none⟩ (fun _ => false) 900 0 [] ['u'] none
    ['ㅎ', 'ㅎ'] ['부', '럽', '네', '요', '~'] [] ⟨0, []⟩ ⟨0, []⟩ []
    (by rfl) (by rfl)

/-- **C2, counterexample.**  The emitted comment can contain the banned word
감사: on a short-body post whose only existing comment is 감사해요, the
fallback generator copies the existing comment, the tone pass turns it into
감사해욘, and the pipeline posts it — no banned-phrase filter runs on the
fallback or retry paths. -/
theorem C2_fallback_emits_gamsa :
    Kasino.write_comment_core ⟨none⟩ (fun _ => false) 900 0 [] true ['u'] none
        ['ㅎ', 'ㅎ'] [['감', '사', '해', '요']] ⟨0, []⟩ ⟨0, []⟩ []
      = ⟨Kasino.Outcome.posted ['감', '사', '해', '욘'], true⟩ ∧
    Kasino.containsSub ['감', '사', '해', '욘'] Kasino.gamsa = true :=
  ⟨by rfl, by rfl⟩

/-- **C2, amended.**  Texts returned by the direct AI success path are free of
the banned word 감사 — the final safeguard diverts any such text to the
fallback generator; the retry path and the fallback generator themselves run
no banned-phrase filter and can emit 감사 when their inputs contain it. -/
theorem C2_direct_path_gamsa_free (cfg : Kasino.Config)
    (tooSim : List Char → Bool) (pc : List Char) (ecs : List (List Char))
    (resp respR : Kasino.RemoteResp) (rng : List Nat) (t : List Char)
    (b : Bool) (rng' : List Nat)
    (h : Kasino.generate_ai_comment cfg tooSim pc ecs resp respR rng
        = (⟨Kasino.Prov.direct, t⟩, b, rng')) :
    Kasino.containsSub t Kasino.gamsa = false := by
  simp only [Kasino.generate_ai_comment] at h
  split at h
  · simp at h
  · split at h
    · simp at h
    · split at h
      · simp at h
      · simp only [Prod.mk.injEq] at h
        exact Kasino.aiSuccess_direct_gamsa_free cfg tooSim pc ecs respR
          (Kasino.stripWs resp.text) rng t rng'
          (Prod.ext h.1 h.2.2)

/-- Witness for C2 on a concrete direct-path response. -/
theorem C2_direct_path_gamsa_free_witness :
    Kasino.containsSub ['부', '럽', '네', '요'] Kasino.gamsa = false :=
  C2_direct_path_gamsa_free ⟨some ['s', 'k']⟩ (fun _ => false)
    Kasino.scenABody [['부', '럽', '네', '요', '~']]
    ⟨200, ['이', '유', ':', ' ', '스', '타', '일', '이', ' ', '좋', '아', '요',
      ' ', '댓', '글', ':', ' ', '부', '럽', '네', '요']⟩
    ⟨0, []⟩ [] ['부', '럽', '네', '요'] true [] (by rfl)

/-- **C4, counterexample.**  A 401 answer is not sticky: in a run of two
visits whose generation service answers 401 both times, the first call falls
back, yet the second call attempts a remote generation call again — the code
stores no state that disables remote generation for the rest of the run. -/
theorem C4_unauthorized_retried_next_call :
    Kasino.c4Run.map Prod.snd = [true, true] ∧
    Kasino.c4Run.map (fun g => g.1.prov)
      = [Kasino.Prov.fallback, Kasino.Prov.fallback] :=
  ⟨by rfl, by rfl⟩

/-- **C4, amended.**  A 401 answer makes the current call return the fallback
generator's output, but nothing disables remote generation: any later
`generate_ai_comment` call whose key and body pass the gates attempts a remote
call again, whatever the earlier responses were. -/
theorem C4_unauthorized_fallback_not_sticky (cfg : Kasino.Config)
    (tooSim : List Char → Bool) (pc : List Char) (ecs : List (List Char))
    (t : List Char) (respR resp₂ : Kasino.RemoteResp) (rng rng₂ : List Nat)
    (hkey : cfg.keyOk = true) (hne : pc.isEmpty = false)
    (hlen : ¬((Kasino.stripWs pc).length < 10)) :
    (Kasino.generate_ai_comment cfg tooSim pc ecs ⟨401, t⟩ respR rng).1.prov
      = Kasino.Prov.fallback ∧
    (Kasino.generate_ai_comment cfg tooSim pc ecs ⟨401, t⟩ respR rng).2.1
      = true ∧
    (Kasino.generate_ai_comment cfg tooSim pc ecs resp₂ respR rng₂).2.1
      = true := by
  refine ⟨?_, ?_, ?_⟩
  · simp [Kasino.generate_ai_comment, hkey, hne, hlen]
  · simp [Kasino.generate_ai_comment, hkey, hne, hlen]
  · simp [Kasino.generate_ai_comment, hkey, hne, hlen]
    split
    · rfl
    · rfl

/-- Witness for C4 at a concrete configuration and body. -/
theorem C4_unauthorized_fallback_not_sticky_witness :
    (Kasino.generate_ai_comment ⟨some ['s', 'k']⟩ (fun _ => false)
        Kasino.scenABody [['부', '럽', '네', '요', '~']] ⟨401, []⟩ ⟨401, []⟩
        []).1.prov = Kasino.Prov.fallback ∧
    (Kasino.generate_ai_comment ⟨some ['s', 'k']⟩ (fun _ => false)
        Kasino.scenABody [['부', '럽', '네', '요', '~']] ⟨401, []⟩ ⟨401, []⟩
        []).2.1 = true ∧
    (Kasino.generate_ai_comment ⟨some ['s', 'k']⟩ (fun _ => false)
        Kasino.scenABody [['부', '럽', '네', '요', '~']] ⟨200, []⟩ ⟨401, []⟩
        []).2.1 = true :=
  C4_unauthorized_fallback_not_sticky ⟨some ['s', 'k']⟩ (fun _ => false)
    Kasino.scenABody [['부', '럽', '네', '요', '~']] [] ⟨401, []⟩ ⟨200, []⟩
    [] [] (by rfl) (by rfl) (by decide)
